import Mathlib

/-!
Verification of the cloco-node authenticated request client
(`src/api-client.ts`, class `ApiClient`).

The embedding models each of the five static operations as a pure function
from its inputs to a record describing (a) the single HTTP request the
operation issues through the restify transport (client options, payload
encoding, method, path, body), (b) the options value as it stands after the
call (the source never writes into it), and (c) the behaviour of the promise
as a function of the transport callback's argument: reject on a transport
error, resolve on success, with the write path additionally re-parsing a
raw-string response as JSON.  An exception thrown inside the asynchronous
transport callback is not caught by the `new Promise` executor (the executor
only traps synchronous throws), so such a throw leaves the promise unsettled;
the embedding records that outcome as `Outcome.uncaught`.

External builtins are modelled concretely: `JSON.parse` as a small JSON
parser, `new Buffer(s).toString("base64")` as base64 over the UTF-8 bytes of
`s`, and JavaScript template interpolation of a possibly-undefined field as
`jsStr` (an absent value prints as the literal string "undefined").
Diagnostic logging (`Logger.log.*`) is a no-op-safe side channel with no
effect on any result and is omitted.

The shapes `IOptions` (types/ioptions.ts) and `TokenRequest`
(types/token-request.ts) are not under src/; they are modelled from the
spec where noted.  `ClocoApp`, `ConfigObjectWrapper` and
`AccessTokenResponse` are opaque pass-through payloads and are represented
by the generic JSON value type.
-/

/-- JavaScript/JSON values, as decoded by the transport or supplied as a
request body (`body: any` in the source).  `typeof body === "string"`
corresponds to the `str` constructor. -/
inductive Json where
  | null
  | bool (b : Bool)
  | num (n : Int)
  | str (s : String)
  | arr (elems : List Json)
  | obj (fields : List (String × Json))
deriving Repr

/-- `typeof body === "string"` on a JavaScript value. -/
def Json.isString : Json → Bool
  | .str _ => true
  | _ => false

namespace JSON

def isWs (c : Char) : Bool :=
  c = ' ' || c = '\n' || c = '\t' || c = '\r'

def skipWs : List Char → List Char
  | [] => []
  | c :: cs => if isWs c then skipWs cs else c :: cs

def isDigit (c : Char) : Bool :=
  '0' ≤ c && c ≤ '9'

/-- Consume a run of decimal digits, accumulating their value. -/
def digitsToNat (acc : Nat) : List Char → Nat × List Char
  | [] => (acc, [])
  | c :: cs =>
    if isDigit c then digitsToNat (acc * 10 + (c.toNat - '0'.toNat)) cs
    else (acc, c :: cs)

/-- Consume the body of a JSON string literal after the opening quote. -/
def parseStringChars (acc : List Char) : List Char → Except String (String × List Char)
  | [] => .error "unterminated string"
  | '"' :: cs => .ok (String.mk acc.reverse, cs)
  | '\\' :: '"' :: cs => parseStringChars ('"' :: acc) cs
  | '\\' :: '\\' :: cs => parseStringChars ('\\' :: acc) cs
  | '\\' :: 'n' :: cs => parseStringChars ('\n' :: acc) cs
  | '\\' :: 't' :: cs => parseStringChars ('\t' :: acc) cs
  | '\\' :: _ => .error "bad escape"
  | c :: cs => parseStringChars (c :: acc) cs

mutual

/-- Parse one JSON value.  `fuel` bounds the recursion depth. -/
def parseVal (fuel : Nat) (cs : List Char) : Except String (Json × List Char) :=
  match fuel with
  | 0 => .error "too deep"
  | f + 1 =>
    match skipWs cs with
    | [] => .error "unexpected end of input"
    | 'n' :: 'u' :: 'l' :: 'l' :: rest => .ok (Json.null, rest)
    | 't' :: 'r' :: 'u' :: 'e' :: rest => .ok (Json.bool true, rest)
    | 'f' :: 'a' :: 'l' :: 's' :: 'e' :: rest => .ok (Json.bool false, rest)
    | '"' :: rest => do
      let (s, rest) ← parseStringChars [] rest
      .ok (Json.str s, rest)
    | '[' :: rest => parseElems f [] (skipWs rest)
    | '{' :: rest => parseFields f [] (skipWs rest)
    | '-' :: c :: rest =>
      if isDigit c then
        let (n, rest) := digitsToNat (c.toNat - '0'.toNat) rest
        .ok (Json.num (-(Int.ofNat n)), rest)
      else .error "invalid number"
    | c :: rest =>
      if isDigit c then
        let (n, rest) := digitsToNat (c.toNat - '0'.toNat) rest
        .ok (Json.num (Int.ofNat n), rest)
      else .error "unexpected character"

/-- Parse array elements after the opening bracket. -/
def parseElems (fuel : Nat) (acc : List Json) (cs : List Char) : Except String (Json × List Char) :=
  match fuel with
  | 0 => .error "too deep"
  | f + 1 =>
    match cs with
    | ']' :: rest => .ok (Json.arr acc.reverse, rest)
    | _ => do
      let (v, rest) ← parseVal f cs
      match skipWs rest with
      | ',' :: rest => parseElems f (v :: acc) (skipWs rest)
      | ']' :: rest => .ok (Json.arr (v :: acc).reverse, rest)
      | _ => .error "expected comma or bracket"

/-- Parse object members after the opening brace. -/
def parseFields (fuel : Nat) (acc : List (String × Json)) (cs : List Char) :
    Except String (Json × List Char) :=
  match fuel with
  | 0 => .error "too deep"
  | f + 1 =>
    match cs with
    | '}' :: rest => .ok (Json.obj acc.reverse, rest)
    | '"' :: rest => do
      let (k, rest) ← parseStringChars [] rest
      match skipWs rest with
      | ':' :: rest => do
        let (v, rest) ← parseVal f rest
        match skipWs rest with
        | ',' :: rest => parseFields f ((k, v) :: acc) (skipWs rest)
        | '}' :: rest => .ok (Json.obj ((k, v) :: acc).reverse, rest)
        | _ => .error "expected comma or brace"
      | _ => .error "expected colon"
    | _ => .error "expected key"

end

/-- Model of the JavaScript builtin `JSON.parse` on a string argument: either
the decoded value or a SyntaxError message. -/
def parse (s : String) : Except String Json := do
  let (v, rest) ← parseVal (s.length + 2) s.data
  match skipWs rest with
  | [] => .ok v
  | _ => .error "unexpected trailing characters"

end JSON

mutual

/-- Model of the JavaScript abstract ToString conversion on a JSON-shaped
value, as `JSON.parse` applies it to a non-string argument. -/
def jsToString : Json → String
  | .str s => s
  | .null => "null"
  | .bool true => "true"
  | .bool false => "false"
  | .num n => toString n
  | .arr xs => jsJoinElems xs
  | .obj _ => "[object Object]"

/-- JavaScript `Array.prototype.toString`: elements joined by commas, with
null elements rendered empty. -/
def jsJoinElems : List Json → String
  | [] => ""
  | [v] => (match v with | Json.null => "" | _ => jsToString v)
  | v :: vs => (match v with | Json.null => "" | _ => jsToString v) ++ "," ++ jsJoinElems vs

end

/-- The base64 alphabet. -/
def base64Table : List Char :=
  "ABCDEFGHIJKLMNOPQRSTUVWXYZabcdefghijklmnopqrstuvwxyz0123456789+/".toList

def b64c (n : Nat) : Char := base64Table.getD n '?'

/-- Base64-encode a byte list, with `=` padding. -/
def base64Chunks : List Nat → String
  | [] => ""
  | [a] => String.mk [b64c (a / 4), b64c (a % 4 * 16), '=', '=']
  | [a, b] => String.mk [b64c (a / 4), b64c (a % 4 * 16 + b / 16), b64c (b % 16 * 4), '=']
  | a :: b :: c :: rest =>
    String.mk [b64c (a / 4), b64c (a % 4 * 16 + b / 16), b64c (b % 16 * 4 + c / 64), b64c (c % 64)]
      ++ base64Chunks rest

/-- UTF-8 encoding of one character, as a list of byte values. -/
def utf8EncodeCharBytes (c : Char) : List Nat :=
  let n := c.toNat
  if n < 128 then [n]
  else if n < 2048 then [192 + n / 64, 128 + n % 64]
  else if n < 65536 then [224 + n / 4096, 128 + n / 64 % 64, 128 + n % 64]
  else [240 + n / 262144, 128 + n / 4096 % 64, 128 + n / 64 % 64, 128 + n % 64]

def utf8Bytes (s : String) : List Nat :=
  s.data.flatMap utf8EncodeCharBytes

/-- Model of `new Buffer(s).toString("base64")`. -/
def base64 (s : String) : String :=
  base64Chunks (utf8Bytes s)

/-- Modelled from the spec: the credential pair of `IOptions`
(types/ioptions.ts is not under src/).  Each field may be absent at
runtime, in which case JavaScript reads it as `undefined`. -/
structure Credentials where
  key : Option String
  secret : Option String
deriving Repr, DecidableEq

/-- Modelled from the spec: the token pair of `IOptions`
(types/ioptions.ts is not under src/).  Each field may be absent at
runtime, in which case JavaScript reads it as `undefined`. -/
structure Tokens where
  accessToken : Option String
  refreshToken : Option String
deriving Repr, DecidableEq

/-- Modelled from the spec: the `IOptions` initialization options
(types/ioptions.ts is not under src/): base url plus the
subscription/application/environment triple, credentials and tokens. -/
structure IOptions where
  url : String
  subscription : String
  application : String
  environment : String
  credentials : Credentials
  tokens : Tokens
deriving Repr, DecidableEq

/-- JavaScript template interpolation of a possibly-undefined string field:
an absent value renders as the literal text "undefined". -/
def jsStr : Option String → String
  | some s => s
  | none => "undefined"

/-- Modelled from the spec: the outbound OAuth grant request
(types/token-request.ts is not under src/): `grant_type` plus an optional
`refresh_token`, both undefined on a freshly constructed object and present
on the wire only once assigned. -/
structure TokenRequest where
  grant_type : Option String
  refresh_token : Option String
deriving Repr, DecidableEq

/-- `new TokenRequest()`: both fields start undefined. -/
def TokenRequest.new : TokenRequest :=
  { grant_type := none, refresh_token := none }

/-- Payload encoding selected by the restify client constructor:
`createJsonClient` gives `json`, `createStringClient` gives `rawString`. -/
inductive Encoding where
  | json
  | rawString
deriving Repr, DecidableEq

/-- The restify client options built by `ApiClient.getRestifyOptions`:
base url, version pin and the header list. -/
structure RestifyClientOptions where
  url : String
  version : String
  headers : List (String × String)
deriving Repr, DecidableEq

/-- HTTP method of the single round trip an operation issues. -/
inductive Method where
  | GET
  | PUT
  | POST
deriving Repr, DecidableEq

/-- Body attached to the request, as handed to the transport. -/
inductive RequestBody where
  | empty
  | value (v : Json)
  | token (t : TokenRequest)
deriving Repr

/-- The one HTTP request an operation issues: the client configuration and
encoding it was created with, and the method, path and body of the call. -/
structure Request where
  clientOptions : RestifyClientOptions
  encoding : Encoding
  method : Method
  path : String
  body : RequestBody
deriving Repr

/-- A transport error value passed to a restify callback.  Opaque to the
client beyond identity. -/
structure JsError where
  message : String
deriving Repr, DecidableEq

/-- The argument with which the transport invokes the operation's callback:
either a truthy error, or a success with the decoded body `obj`. -/
inductive CallbackArg where
  | error (e : JsError)
  | success (obj : Json)
deriving Repr

/-- How the operation's promise ends up, as a function of the callback
argument.  `uncaught` records an exception thrown inside the asynchronous
transport callback: the `new Promise` executor only traps synchronous
throws, so the exception escapes and the promise never settles. -/
inductive Outcome where
  | resolved (v : Json)
  | rejected (e : JsError)
  | uncaught (e : JsError)
deriving Repr

/-- Everything observable about one operation invocation: the request it
issues, the options value after the call, and the promise behaviour. -/
structure OpCall where
  request : Request
  optionsAfter : IOptions
  settle : CallbackArg → Outcome

namespace ApiClient

/-- `ApiClient.getRestifyOptions(options, credentialType?)`: base url,
version "*", and exactly one authorization header — Basic from
`credentials.key`/`credentials.secret` when `credentialType === "basic"`,
otherwise Bearer from `tokens.accessToken`. -/
def getRestifyOptions (options : IOptions) (credentialType : Option String) :
    RestifyClientOptions :=
  let headers :=
    if credentialType = some "basic" then
      [("authorization",
        "Basic " ++ base64 (jsStr options.credentials.key ++ ":" ++ jsStr options.credentials.secret))]
    else
      [("authorization", "Bearer " ++ jsStr options.tokens.accessToken)]
  { url := options.url, version := "*", headers := headers }

/-- `ApiClient.getApplication(options)`: JSON client, GET
`/{subscription}/applications/{application}`; reject on transport error,
resolve with the decoded object. -/
def getApplication (options : IOptions) : OpCall :=
  let clientOptions := getRestifyOptions options none
  let path := "/" ++ options.subscription ++ "/applications/" ++ options.application
  { request :=
      { clientOptions := clientOptions, encoding := Encoding.json,
        method := Method.GET, path := path, body := RequestBody.empty }
    optionsAfter := options
    settle := fun arg =>
      match arg with
      | CallbackArg.error e => Outcome.rejected e
      | CallbackArg.success obj => Outcome.resolved obj }

/-- `ApiClient.getConfigObject(options, objectId)`: JSON client, GET
`/{subscription}/configuration/{application}/{objectId}/{environment}`;
reject on transport error, resolve with the decoded object. -/
def getConfigObject (options : IOptions) (objectId : String) : OpCall :=
  let clientOptions := getRestifyOptions options none
  let path := "/" ++ options.subscription ++ "/configuration/" ++ options.application
      ++ "/" ++ objectId ++ "/" ++ options.environment
  { request :=
      { clientOptions := clientOptions, encoding := Encoding.json,
        method := Method.GET, path := path, body := RequestBody.empty }
    optionsAfter := options
    settle := fun arg =>
      match arg with
      | CallbackArg.error e => Outcome.rejected e
      | CallbackArg.success obj => Outcome.resolved obj }

/-- `ApiClient.putConfigObject(options, objectId, body)`: if
`typeof body === "string"` a string client is created and `parseResponse`
is set, otherwise a JSON client; PUT to the same path as `getConfigObject`.
On success with `parseResponse` the callback runs `obj = JSON.parse(obj)`
with no try/catch, so a parse failure throws inside the asynchronous
callback and the promise is never settled (`Outcome.uncaught`). -/
def putConfigObject (options : IOptions) (objectId : String) (body : Json) : OpCall :=
  let parseResponse := body.isString
  let clientOptions := getRestifyOptions options none
  let encoding := if body.isString then Encoding.rawString else Encoding.json
  let path := "/" ++ options.subscription ++ "/configuration/" ++ options.application
      ++ "/" ++ objectId ++ "/" ++ options.environment
  { request :=
      { clientOptions := clientOptions, encoding := encoding,
        method := Method.PUT, path := path, body := RequestBody.value body }
    optionsAfter := options
    settle := fun arg =>
      match arg with
      | CallbackArg.error e => Outcome.rejected e
      | CallbackArg.success obj =>
        if parseResponse then
          match JSON.parse (jsToString obj) with
          | Except.ok v => Outcome.resolved v
          | Except.error m => Outcome.uncaught { message := m }
        else Outcome.resolved obj }

/-- `ApiClient.getAccessTokenFromRefreshToken(options)`: JSON client with
the default (bearer) header, POST `/oauth/token` with
`{grant_type: "refresh_token", refresh_token: options.tokens.refreshToken}`;
reject on transport error, resolve with the decoded token response. -/
def getAccessTokenFromRefreshToken (options : IOptions) : OpCall :=
  let clientOptions := getRestifyOptions options none
  let path := "/oauth/token"
  let body := { TokenRequest.new with
    grant_type := some "refresh_token",
    refresh_token := options.tokens.refreshToken }
  { request :=
      { clientOptions := clientOptions, encoding := Encoding.json,
        method := Method.POST, path := path, body := RequestBody.token body }
    optionsAfter := options
    settle := fun arg =>
      match arg with
      | CallbackArg.error e => Outcome.rejected e
      | CallbackArg.success obj => Outcome.resolved obj }

/-- `ApiClient.getAccessTokenFromClientCredentials(options)`: JSON client
built with `credentialType = "basic"`, POST `/oauth/token` with
`{grant_type: "client_credentials"}` and no refresh token; reject on
transport error, resolve with the decoded token response. -/
def getAccessTokenFromClientCredentials (options : IOptions) : OpCall :=
  let clientOptions := getRestifyOptions options (some "basic")
  let path := "/oauth/token"
  let body := { TokenRequest.new with grant_type := some "client_credentials" }
  { request :=
      { clientOptions := clientOptions, encoding := Encoding.json,
        method := Method.POST, path := path, body := RequestBody.token body }
    optionsAfter := options
    settle := fun arg =>
      match arg with
      | CallbackArg.error e => Outcome.rejected e
      | CallbackArg.success obj => Outcome.resolved obj }

end ApiClient

/-- Concrete options used by the end-to-end examples of the spec. -/
def optExample : IOptions :=
  { url := "https://api.example", subscription := "sub1", application := "app1",
    environment := "prod",
    credentials := { key := some "k1", secret := some "s1" },
    tokens := { accessToken := some "AT1", refreshToken := some "RT1" } }

/-- Concrete options with neither tokens nor credentials present. -/
def optNoAuth : IOptions :=
  { url := "https://api.example", subscription := "sub1", application := "app1",
    environment := "prod",
    credentials := { key := none, secret := none },
    tokens := { accessToken := none, refreshToken := none } }

/-- C1: for every call to `putConfigObject(options, objectId, body)`: if
`body` is a plain string the PUT is issued through a raw-string client and,
on transport success, the string response body is parsed as JSON before the
promise resolves with the parsed value; for every non-string `body` the PUT
is issued through a JSON client and the promise resolves with the
transport's decoded object unchanged. -/
theorem putConfigObject_encoding_spec (options : IOptions) (objectId : String)
    (body : Json) (s : String) (v : Json) :
    (body.isString = true →
      (ApiClient.putConfigObject options objectId body).request.encoding = Encoding.rawString ∧
      (JSON.parse s = Except.ok v →
        (ApiClient.putConfigObject options objectId body).settle
            (CallbackArg.success (Json.str s)) = Outcome.resolved v)) ∧
    (body.isString = false →
      (ApiClient.putConfigObject options objectId body).request.encoding = Encoding.json ∧
      ∀ obj, (ApiClient.putConfigObject options objectId body).settle
          (CallbackArg.success obj) = Outcome.resolved obj) := by
  constructor
  · intro hstr
    constructor
    · simp [ApiClient.putConfigObject, hstr]
    · intro hparse
      simp [ApiClient.putConfigObject, hstr, jsToString, hparse]
  · intro hnot
    constructor
    · simp [ApiClient.putConfigObject, hnot]
    · intro obj
      simp [ApiClient.putConfigObject, hnot]

/-- Witness for C1: with the example options, a string body selects the
raw-string client and a JSON response string "1" resolves to the number 1,
while an object body selects the JSON client. -/
theorem putConfigObject_encoding_spec_witness :
    (ApiClient.putConfigObject optExample "raw-blob" (Json.str "hello=world")).request.encoding
        = Encoding.rawString ∧
    (ApiClient.putConfigObject optExample "raw-blob" (Json.str "hello=world")).settle
        (CallbackArg.success (Json.str "1")) = Outcome.resolved (Json.num 1) ∧
    (ApiClient.putConfigObject optExample "raw-blob" (Json.obj [])).request.encoding
        = Encoding.json := by
  refine ⟨?_, ?_, ?_⟩
  · exact ((putConfigObject_encoding_spec optExample "raw-blob" (Json.str "hello=world")
      "1" (Json.num 1)).1 rfl).1
  · exact ((putConfigObject_encoding_spec optExample "raw-blob" (Json.str "hello=world")
      "1" (Json.num 1)).1 rfl).2 rfl
  · exact ((putConfigObject_encoding_spec optExample "raw-blob" (Json.obj [])
      "1" (Json.num 1)).2 rfl).1

/-- C2 (code bug): with a string body and a transport success whose string
response is not valid JSON, `JSON.parse` throws inside the asynchronous
restify callback; the `new Promise` executor does not catch it, so the
promise is never rejected nor resolved — no DecodeFailure reaches the
caller.  Evaluated at the failing input. -/
theorem putConfigObject_malformed_response_uncaught :
    ∃ e, (ApiClient.putConfigObject optExample "raw-blob" (Json.str "hello=world")).settle
        (CallbackArg.success (Json.str "not json")) = Outcome.uncaught e := by
  refine ⟨{ message := "unexpected character" }, ?_⟩
  rfl

/-- C3: with a present, non-empty access token, `getApplication` issues a
GET to `/{subscription}/applications/{application}` and `getConfigObject`
a GET to `/{subscription}/configuration/{application}/{objectId}/{environment}`,
both through a JSON client whose only header is
`authorization: Bearer <accessToken>`, and both resolve with the
transport's decoded body. -/
theorem fetch_operations_spec (options : IOptions) (objectId : String) (t : String)
    (h : options.tokens.accessToken = some t) (_hne : t ≠ "") :
    (ApiClient.getApplication options).request.method = Method.GET ∧
    (ApiClient.getApplication options).request.path
        = "/" ++ options.subscription ++ "/applications/" ++ options.application ∧
    (ApiClient.getApplication options).request.encoding = Encoding.json ∧
    (ApiClient.getApplication options).request.clientOptions.headers
        = [("authorization", "Bearer " ++ t)] ∧
    (∀ obj, (ApiClient.getApplication options).settle (CallbackArg.success obj)
        = Outcome.resolved obj) ∧
    (ApiClient.getConfigObject options objectId).request.method = Method.GET ∧
    (ApiClient.getConfigObject options objectId).request.path
        = "/" ++ options.subscription ++ "/configuration/" ++ options.application
          ++ "/" ++ objectId ++ "/" ++ options.environment ∧
    (ApiClient.getConfigObject options objectId).request.encoding = Encoding.json ∧
    (ApiClient.getConfigObject options objectId).request.clientOptions.headers
        = [("authorization", "Bearer " ++ t)] ∧
    ∀ obj, (ApiClient.getConfigObject options objectId).settle (CallbackArg.success obj)
        = Outcome.resolved obj := by
  refine ⟨rfl, rfl, rfl, ?_, fun obj => rfl, rfl, rfl, rfl, ?_, fun obj => rfl⟩
  · simp [ApiClient.getApplication, ApiClient.getRestifyOptions, h, jsStr]
  · simp [ApiClient.getConfigObject, ApiClient.getRestifyOptions, h, jsStr]

/-- Witness for C3: the spec's end-to-end example, options with access
token "AT1" and objectId "feature-flags". -/
theorem fetch_operations_spec_witness :
    (ApiClient.getConfigObject optExample "feature-flags").request.path
        = "/sub1/configuration/app1/feature-flags/prod" ∧
    (ApiClient.getConfigObject optExample "feature-flags").request.clientOptions.headers
        = [("authorization", "Bearer AT1")] ∧
    (ApiClient.getApplication optExample).request.path = "/sub1/applications/app1" := by
  have h := fetch_operations_spec optExample "feature-flags" "AT1" rfl (by decide)
  exact ⟨h.2.2.2.2.2.2.1, h.2.2.2.2.2.2.2.2.1, h.2.1⟩

/-- C4: `getAccessTokenFromClientCredentials` issues a POST to
`/oauth/token` whose body has `grant_type = "client_credentials"` and no
`refresh_token` field, with the single header
`authorization: Basic base64(key ++ ":" ++ secret)` built from
`options.credentials`. -/
theorem clientCredentials_request_spec (options : IOptions) (k s : String)
    (hk : options.credentials.key = some k) (hs : options.credentials.secret = some s) :
    (ApiClient.getAccessTokenFromClientCredentials options).request.method = Method.POST ∧
    (ApiClient.getAccessTokenFromClientCredentials options).request.path = "/oauth/token" ∧
    (ApiClient.getAccessTokenFromClientCredentials options).request.body
        = RequestBody.token { grant_type := some "client_credentials", refresh_token := none } ∧
    (ApiClient.getAccessTokenFromClientCredentials options).request.clientOptions.headers
        = [("authorization", "Basic " ++ base64 (k ++ ":" ++ s))] := by
  refine ⟨rfl, rfl, rfl, ?_⟩
  simp [ApiClient.getAccessTokenFromClientCredentials, ApiClient.getRestifyOptions,
    hk, hs, jsStr]

/-- Witness for C4: with key "k1" and secret "s1" the Basic header carries
base64("k1:s1") = "azE6czE=". -/
theorem clientCredentials_request_spec_witness :
    (ApiClient.getAccessTokenFromClientCredentials optExample).request.clientOptions.headers
        = [("authorization", "Basic azE6czE=")] ∧
    (ApiClient.getAccessTokenFromClientCredentials optExample).request.body
        = RequestBody.token { grant_type := some "client_credentials", refresh_token := none } := by
  have h := clientCredentials_request_spec optExample "k1" "s1" rfl rfl
  exact ⟨h.2.2.2, h.2.2.1⟩

/-- C5: `getAccessTokenFromRefreshToken` issues a POST to `/oauth/token`
through a JSON client, with body
`{grant_type: "refresh_token", refresh_token: options.tokens.refreshToken}`
and the single Bearer header built from the current access token. -/
theorem refreshToken_request_spec (options : IOptions) :
    (ApiClient.getAccessTokenFromRefreshToken options).request.method = Method.POST ∧
    (ApiClient.getAccessTokenFromRefreshToken options).request.path = "/oauth/token" ∧
    (ApiClient.getAccessTokenFromRefreshToken options).request.encoding = Encoding.json ∧
    (ApiClient.getAccessTokenFromRefreshToken options).request.body
        = RequestBody.token { grant_type := some "refresh_token",
                              refresh_token := options.tokens.refreshToken } ∧
    (ApiClient.getAccessTokenFromRefreshToken options).request.clientOptions.headers
        = [("authorization", "Bearer " ++ jsStr options.tokens.accessToken)] :=
  ⟨rfl, rfl, rfl, rfl, rfl⟩

/-- C6: for each of the five operations, every transport error value is
passed to `reject` unchanged: the promise is rejected with exactly that
error. -/
theorem transport_error_propagation (options : IOptions) (objectId : String)
    (body : Json) (e : JsError) :
    (ApiClient.getApplication options).settle (CallbackArg.error e) = Outcome.rejected e ∧
    (ApiClient.getConfigObject options objectId).settle (CallbackArg.error e)
        = Outcome.rejected e ∧
    (ApiClient.putConfigObject options objectId body).settle (CallbackArg.error e)
        = Outcome.rejected e ∧
    (ApiClient.getAccessTokenFromRefreshToken options).settle (CallbackArg.error e)
        = Outcome.rejected e ∧
    (ApiClient.getAccessTokenFromClientCredentials options).settle (CallbackArg.error e)
        = Outcome.rejected e :=
  ⟨rfl, rfl, rfl, rfl, rfl⟩

/-- C7: every call produces exactly one authorization header — Basic (from
`credentials.key`/`credentials.secret`) for `getAccessTokenFromClientCredentials`
only, Bearer (from `tokens.accessToken`) for the other four operations. -/
theorem auth_header_exactly_one (options : IOptions) (objectId : String) (body : Json) :
    (ApiClient.getApplication options).request.clientOptions.headers
        = [("authorization", "Bearer " ++ jsStr options.tokens.accessToken)] ∧
    (ApiClient.getConfigObject options objectId).request.clientOptions.headers
        = [("authorization", "Bearer " ++ jsStr options.tokens.accessToken)] ∧
    (ApiClient.putConfigObject options objectId body).request.clientOptions.headers
        = [("authorization", "Bearer " ++ jsStr options.tokens.accessToken)] ∧
    (ApiClient.getAccessTokenFromRefreshToken options).request.clientOptions.headers
        = [("authorization", "Bearer " ++ jsStr options.tokens.accessToken)] ∧
    (ApiClient.getAccessTokenFromClientCredentials options).request.clientOptions.headers
        = [("authorization", "Basic " ++ base64 (jsStr options.credentials.key ++ ":"
            ++ jsStr options.credentials.secret))] :=
  ⟨rfl, rfl, rfl, rfl, rfl⟩

/-- C8: no operation mutates the options value handed to it: after any of
the five calls the options are identical to the input; new tokens are only
returned through the promise, never written into the options. -/
theorem options_not_mutated (options : IOptions) (objectId : String) (body : Json) :
    (ApiClient.getApplication options).optionsAfter = options ∧
    (ApiClient.getConfigObject options objectId).optionsAfter = options ∧
    (ApiClient.putConfigObject options objectId body).optionsAfter = options ∧
    (ApiClient.getAccessTokenFromRefreshToken options).optionsAfter = options ∧
    (ApiClient.getAccessTokenFromClientCredentials options).optionsAfter = options :=
  ⟨rfl, rfl, rfl, rfl, rfl⟩

/-- C9: for the same options and objectId, `putConfigObject` addresses
exactly the path `getConfigObject` addresses. -/
theorem put_get_same_path (options : IOptions) (objectId : String) (body : Json) :
    (ApiClient.putConfigObject options objectId body).request.path
        = (ApiClient.getConfigObject options objectId).request.path :=
  rfl

/-- C10: header construction is total plain interpolation and no
precondition is enforced: with an absent access token the Bearer-path
operations still build their request, carrying the literal header value
"Bearer undefined", and with absent credentials the client-credentials call
carries `Basic base64("undefined:undefined")`. -/
theorem no_precondition_enforcement (options : IOptions) (objectId : String)
    (h : options.tokens.accessToken = none) :
    (ApiClient.getApplication options).request.clientOptions.headers
        = [("authorization", "Bearer undefined")] ∧
    (ApiClient.getApplication options).request.path
        = "/" ++ options.subscription ++ "/applications/" ++ options.application ∧
    (ApiClient.getConfigObject options objectId).request.clientOptions.headers
        = [("authorization", "Bearer undefined")] ∧
    (ApiClient.getAccessTokenFromRefreshToken options).request.clientOptions.headers
        = [("authorization", "Bearer undefined")] ∧
    (options.credentials.key = none → options.credentials.secret = none →
      (ApiClient.getAccessTokenFromClientCredentials options).request.clientOptions.headers
          = [("authorization", "Basic " ++ base64 "undefined:undefined")]) := by
  refine ⟨?_, rfl, ?_, ?_, ?_⟩
  · simp [ApiClient.getApplication, ApiClient.getRestifyOptions, h, jsStr]
  · simp [ApiClient.getConfigObject, ApiClient.getRestifyOptions, h, jsStr]
  · simp [ApiClient.getAccessTokenFromRefreshToken, ApiClient.getRestifyOptions, h, jsStr]
  · intro hk hs
    simp [ApiClient.getAccessTokenFromClientCredentials, ApiClient.getRestifyOptions,
      hk, hs, jsStr]

/-- Witness for C10: with every token and credential absent, the headers
are the literal "Bearer undefined" and base64 of "undefined:undefined". -/
theorem no_precondition_enforcement_witness :
    (ApiClient.getApplication optNoAuth).request.clientOptions.headers
        = [("authorization", "Bearer undefined")] ∧
    (ApiClient.getAccessTokenFromClientCredentials optNoAuth).request.clientOptions.headers
        = [("authorization", "Basic " ++ base64 "undefined:undefined")] := by
  have h := no_precondition_enforcement optNoAuth "obj1" rfl
  exact ⟨h.1, h.2.2.2.2 rfl rfl⟩
